import Mathlib

/-!
Shallow embedding of the Phone-Tracker search core:
the similarity engine (fuzzy-search utilities), the query optimizer /
cache-key module, the geospatial engine, and the relevant parts of the
`/api/search` orchestrator, together with proofs checking the
natural-language specification against this code.

JavaScript conventions used throughout the embedding:
* JS strings are modelled as `List Char`; string-typed record fields and
  request parameters are `Option String` (`none` = `undefined`, and the
  empty string is falsy exactly as in JS).
* numbers read from the database or parsed from the query string are
  modelled as `ℚ` (they are IEEE doubles with short decimal literals in all
  code paths of interest); trigonometric computations live in `ℝ`.
* a JS function that can return `Infinity` or `null`/`NaN` is modelled with
  `Option`, `none` standing for the exceptional value.
-/

set_option maxHeartbeats 1000000

namespace PhoneTracker

/-! ### Similarity engine (fuzzy-search utilities) -/

/-- One cell-by-cell pass along a row of the Levenshtein matrix
(`for (let j = 1; j <= len2; j++)` in `levenshteinDistance`).
`pairs` zips each character of `str2` with the entry `matrix[i-1][j]` of the
previous row; `diag` is `matrix[i-1][j-1]` and `left` is `matrix[i][j-1]`. -/
def levRowGo (x : Char) : List (Char × ℕ) → ℕ → ℕ → List ℕ
  | [], _, _ => []
  | (y, above) :: rest, diag, left =>
    let cell := if x = y then diag else 1 + min diag (min left above)
    cell :: levRowGo x rest above cell

/-- Computes row `i` of the Levenshtein matrix from row `i-1`
(`matrix[i][0] = i`, then the inner loop of `levenshteinDistance`). -/
def levRow (x : Char) (ys : List Char) (prev : List ℕ) : List ℕ :=
  match prev with
  | [] => []
  | p0 :: ptail => (p0 + 1) :: levRowGo x (ys.zip ptail) p0 (p0 + 1)

/-- Outer loop of `levenshteinDistance`: folds `levRow` over the characters
of `str1`, starting from row `0 = [0, 1, ..., len2]`. -/
def levFold (ys : List Char) : List Char → List ℕ → List ℕ
  | [], row => row
  | x :: xs, row => levFold ys xs (levRow x ys row)

/-- `levenshteinDistance(str1, str2)` from the fuzzy-search utilities: the
classic dynamic-programming matrix, returning `matrix[len1][len2]`.
(The `!str1 || !str2` guard of the source returns `max` of the lengths,
which coincides with what the matrix yields on empty inputs.) -/
def levenshteinDistance (s1 s2 : List Char) : ℕ :=
  (levFold s2 s1 (List.range (s2.length + 1))).getLastD 0

/-- `calculateSimilarity(str1, str2)`: `0` when either input is falsy
(which in JS includes the empty string), otherwise
`(maxLength - distance) / maxLength * 100` with the distance taken on the
lowercased strings.  The `maxLength === 0` branch of the source is
unreachable because empty strings are caught by the falsy guard. -/
def calculateSimilarity (s1 s2 : List Char) : ℚ :=
  if s1 = [] ∨ s2 = [] then 0
  else
    let maxLength := max s1.length s2.length
    if maxLength = 0 then 100
    else ((maxLength : ℚ) - (levenshteinDistance (s1.map Char.toLower) (s2.map Char.toLower) : ℚ))
      / (maxLength : ℚ) * 100

/-- `normalizePhoneNumber`: strip every non-digit character
(`phoneNumber.replace(/\D/g, '')`). -/
def normalizePhoneNumber (s : List Char) : List Char :=
  s.filter Char.isDigit

/-- `isPhoneSimilar(phone1, phone2, threshold)`: exact match after
normalization, else the substring rule (`norm1.includes(norm2)` or
conversely, with minimum length at least 7), else fall back to
`calculateSimilarity ≥ threshold`. -/
def isPhoneSimilar (phone1 phone2 : List Char) (threshold : ℚ) : Bool :=
  let norm1 := normalizePhoneNumber phone1
  let norm2 := normalizePhoneNumber phone2
  if norm1 = norm2 then true
  else if (norm2 <:+: norm1 ∨ norm1 <:+: norm2) ∧ 7 ≤ min norm1.length norm2.length then true
  else decide (threshold ≤ calculateSimilarity norm1 norm2)

lemma levRowGo_length (x : Char) (pairs : List (Char × ℕ)) (diag left : ℕ) :
    (levRowGo x pairs diag left).length = pairs.length := by
  induction pairs generalizing diag left with
  | nil => rfl
  | cons p rest ih => cases p with | mk y above => simp [levRowGo, ih]

lemma levRowGo_le (x : Char) (pairs : List (Char × ℕ)) :
    ∀ (diag left i k : ℕ),
      diag ≤ max i k →
      left ≤ max (i + 1) k →
      (∀ t (ht : t < pairs.length), pairs[t].2 ≤ max i (k + t + 1)) →
      ∀ t (ht : t < (levRowGo x pairs diag left).length),
        (levRowGo x pairs diag left)[t] ≤ max (i + 1) (k + t + 1) := by
  induction pairs with
  | nil => intro diag left i k _ _ _ t ht; simp [levRowGo] at ht
  | cons p rest ih =>
    intro diag left i k hdiag hleft habove t ht
    obtain ⟨y, above⟩ := p
    have habove0 : above ≤ max i (k + 1) := by
      have h0 := habove 0 (by simp)
      simpa using h0
    have hsucc : max (i + 1) (k + 1) = max i k + 1 := Nat.succ_max_succ i k
    have hcell : (if x = y then diag else 1 + min diag (min left above)) ≤ max (i + 1) (k + 1) := by
      split
      · exact le_trans hdiag (le_trans (Nat.le_succ _) (by omega))
      · have h1 : min diag (min left above) ≤ diag := min_le_left _ _
        calc 1 + min diag (min left above) ≤ 1 + diag := by omega
          _ ≤ 1 + max i k := by omega
          _ = max (i + 1) (k + 1) := by omega
    match t with
    | 0 => simpa [levRowGo] using hcell
    | t' + 1 =>
      have hrest : ∀ s (hs : s < rest.length), rest[s].2 ≤ max i ((k + 1) + s + 1) := by
        intro s hs
        have h1 := habove (s + 1) (by simpa using Nat.succ_lt_succ hs)
        have h2 : k + (s + 1) + 1 = (k + 1) + s + 1 := by omega
        simpa [h2] using h1
      have hlt : t' < (levRowGo x rest above
          (if x = y then diag else 1 + min diag (min left above))).length := by
        have := ht
        simp [levRowGo, levRowGo_length] at this ⊢
        omega
      have hres := ih above (if x = y then diag else 1 + min diag (min left above)) i (k + 1)
        habove0 hcell hrest t' hlt
      have h3 : (k + 1) + t' + 1 = k + (t' + 1) + 1 := by omega
      simpa [levRowGo, h3] using hres

lemma levRow_spec (x : Char) (ys : List Char) (prev : List ℕ) (i : ℕ)
    (hlen : prev.length = ys.length + 1)
    (hb : ∀ j (hj : j < prev.length), prev[j] ≤ max i j) :
    (levRow x ys prev).length = ys.length + 1 ∧
    ∀ j (hj : j < (levRow x ys prev).length), (levRow x ys prev)[j] ≤ max (i + 1) j := by
  match prev, hlen with
  | p0 :: ptail, hlen =>
    have hpt : ptail.length = ys.length := by simpa using hlen
    have hzlen : (ys.zip ptail).length = ys.length := by simp [List.length_zip, hpt]
    have hp0 : p0 ≤ i := by simpa using hb 0 (by simp)
    have hrow : levRow x ys (p0 :: ptail) =
        (p0 + 1) :: levRowGo x (ys.zip ptail) p0 (p0 + 1) := rfl
    have hgo := levRowGo_le x (ys.zip ptail) p0 (p0 + 1) i 0
      (by simpa using hp0) (by simp; omega)
      (by
        intro t ht
        have ht2 : t < ptail.length := by omega
        have h1 := hb (t + 1) (by simp; omega)
        rw [List.getElem_zip]
        simpa [Nat.add_comm] using h1)
    constructor
    · simp [hrow, levRowGo_length, hzlen]
    · intro j hj
      match j with
      | 0 => simp [hrow]; omega
      | j' + 1 =>
        have hj' : j' < (levRowGo x (ys.zip ptail) p0 (p0 + 1)).length := by
          rw [hrow] at hj
          simp only [List.length_cons] at hj
          omega
        have := hgo j' hj'
        simpa [hrow, Nat.add_comm] using this

lemma levFold_spec (ys : List Char) (xs : List Char) :
    ∀ (row : List ℕ) (i : ℕ),
      row.length = ys.length + 1 →
      (∀ j (hj : j < row.length), row[j] ≤ max i j) →
      (levFold ys xs row).length = ys.length + 1 ∧
      ∀ j (hj : j < (levFold ys xs row).length), (levFold ys xs row)[j] ≤ max (i + xs.length) j := by
  induction xs with
  | nil =>
    intro row i h1 h2
    refine ⟨by simpa [levFold] using h1, ?_⟩
    intro j hj
    have hj2 : j < row.length := by simpa [levFold] using hj
    have := h2 j hj2
    simpa [levFold] using this
  | cons x xs ih =>
    intro row i h1 h2
    have hstep := levRow_spec x ys row i h1 h2
    have := ih (levRow x ys row) (i + 1) hstep.1 hstep.2
    have harith : i + 1 + xs.length = i + (xs.length + 1) := by omega
    simpa [levFold, harith] using this

/-- The DP edit distance never exceeds the length of the longer string. -/
theorem levenshteinDistance_le (s1 s2 : List Char) :
    levenshteinDistance s1 s2 ≤ max s1.length s2.length := by
  have hinit : ∀ j (hj : j < (List.range (s2.length + 1)).length),
      (List.range (s2.length + 1))[j] ≤ max 0 j := by
    intro j hj; simp
  have hfold := levFold_spec s2 s1 (List.range (s2.length + 1)) 0 (by simp) hinit
  set final := levFold s2 s1 (List.range (s2.length + 1)) with hfinal
  have hlen : final.length = s2.length + 1 := hfold.1
  have hbound := hfold.2
  have hne : final ≠ [] := by
    intro h
    rw [h] at hlen
    simp at hlen
  have hlt : s2.length < final.length := by omega
  have hlast : final.getLastD 0 = final[s2.length] := by
    rw [List.getLastD_eq_getLast?, List.getLast?_eq_getElem?, hlen]
    simp only [Nat.add_sub_cancel]
    rw [List.getElem?_eq_getElem hlt]
    rfl
  have := hbound s2.length (by omega)
  rw [levenshteinDistance, ← hfinal, hlast]
  simpa using this

example : levenshteinDistance "a".data "b".data = 1 := by decide
example : levenshteinDistance "kitten".data "sitting".data = 3 := by decide
example : calculateSimilarity "".data "".data = 0 := by decide
example : calculateSimilarity "abc".data "".data = 0 := by decide

lemma calculateSimilarity_bounds (s1 s2 : List Char) :
    0 ≤ calculateSimilarity s1 s2 ∧ calculateSimilarity s1 s2 ≤ 100 := by
  rw [calculateSimilarity]
  split
  · norm_num
  · dsimp only
    split
    · norm_num
    · rename_i hne hM0
      set M := max s1.length s2.length with hM
      set D := levenshteinDistance (s1.map Char.toLower) (s2.map Char.toLower) with hD
      have hDle : D ≤ M := by
        have := levenshteinDistance_le (s1.map Char.toLower) (s2.map Char.toLower)
        simpa [hM] using this
      have hMpos : (0 : ℚ) < (M : ℚ) := by
        have : 0 < M := Nat.pos_of_ne_zero hM0
        exact_mod_cast this
      have hDq : (D : ℚ) ≤ (M : ℚ) := by exact_mod_cast hDle
      constructor
      · apply mul_nonneg _ (by norm_num)
        apply div_nonneg _ hMpos.le
        linarith
      · have h1 : ((M : ℚ) - (D : ℚ)) / (M : ℚ) ≤ 1 := by
          rw [div_le_one hMpos]
          linarith
        calc ((M : ℚ) - (D : ℚ)) / (M : ℚ) * 100 ≤ 1 * 100 :=
              mul_le_mul_of_nonneg_right h1 (by norm_num)
          _ = 100 := by norm_num

/-! ### Query optimizer: cache key, pagination, parameter normalization -/

/-- The raw request parameters relevant to `generateCacheKey`, as they sit in
`req.query`: every value is either absent (`undefined`, modelled `none`) or a
string. -/
structure StrParams where
  query : Option String
  type : Option String
  country : Option String
  region : Option String
  city : Option String
  fuzzy : Option String
  threshold : Option String
  phonetic : Option String
  lat : Option String
  lon : Option String
  radius : Option String
  page : Option String
  limit : Option String
deriving DecidableEq

/-- JS `value || default` for a query-string value: `undefined` and the empty
string are falsy and fall back to the default. -/
def keyPart (v : Option String) (d : String) : String :=
  match v with
  | none => d
  | some s => if s = "" then d else s

/-- `generateCacheKey(params)`: `search:` followed by the thirteen key parts
joined with `:`, each defaulted with `||` as in the source
(`query || 'no-query'`, ..., `fuzzy || 'false'`, `threshold || '70'`, ...). -/
def generateCacheKey (p : StrParams) : String :=
  let keyParts := [
    keyPart p.query "no-query",
    keyPart p.type "all",
    keyPart p.country "no-country",
    keyPart p.region "no-region",
    keyPart p.city "no-city",
    keyPart p.fuzzy "false",
    keyPart p.threshold "70",
    keyPart p.phonetic "false",
    keyPart p.lat "no-lat",
    keyPart p.lon "no-lon",
    keyPart p.radius "10",
    keyPart p.page "1",
    keyPart p.limit "50"]
  "search:" ++ String.intercalate ":" keyParts

/-- JS destructuring default (`const { fuzzy = 'true', ... } = req.query`):
the default applies exactly when the property is `undefined`. -/
def jsDefault (v : Option String) (d : String) : String :=
  match v with
  | none => d
  | some s => s

/-- The parameter defaults applied by the `/api/search` handler
(`fuzzy = 'true'`, `threshold = '70'`, `phonetic = 'false'`,
`radius = '10'`, `page = '1'`, `limit = '50'`); the semantic meaning of a
request is a function of the defaulted parameter set. -/
def applyServerDefaults (p : StrParams) : StrParams :=
  { p with
    fuzzy := some (jsDefault p.fuzzy "true"),
    threshold := some (jsDefault p.threshold "70"),
    phonetic := some (jsDefault p.phonetic "false"),
    radius := some (jsDefault p.radius "10"),
    page := some (jsDefault p.page "1"),
    limit := some (jsDefault p.limit "50") }

/-- The `pagination` metadata object built by `paginateResults`. -/
structure PaginationInfo where
  current_page : ℕ
  total_pages : ℕ
  total_items : ℕ
  items_per_page : ℕ
  has_next : Bool
  has_previous : Bool
  next_page : Option ℕ
  previous_page : Option ℕ
deriving DecidableEq

/-- Result of `paginateResults`. -/
structure PaginatedResult (α : Type) where
  data : List α
  pagination : PaginationInfo
deriving DecidableEq

/-- `paginateResults(results, page, limit)`: `totalPages = ceil(total/limit)`,
`currentPage = max(1, min(page, totalPages))`, slice of `limit` items from
`(currentPage-1)*limit`, plus the derived pagination flags.  (`limit ≥ 1` in
every caller, via `validatePaginationParams`.) -/
def paginateResults {α : Type} (results : List α) (page : ℕ) (limit : ℕ) :
    PaginatedResult α :=
  let totalItems := results.length
  let totalPages := (totalItems + limit - 1) / limit
  let currentPage := max 1 (min page totalPages)
  let offset := (currentPage - 1) * limit
  { data := (results.drop offset).take limit,
    pagination := {
      current_page := currentPage,
      total_pages := totalPages,
      total_items := totalItems,
      items_per_page := limit,
      has_next := decide (currentPage < totalPages),
      has_previous := decide (1 < currentPage),
      next_page := if currentPage < totalPages then some (currentPage + 1) else none,
      previous_page := if 1 < currentPage then some (currentPage - 1) else none } }

/-- The parameters touched by `optimizeSearchParams`.  Numeric parameters are
query-string values already parsed (`parseInt`/`parseFloat` of a plain decimal
literal); a present value is a non-empty string and hence truthy. -/
structure OptiParams where
  query : Option String
  threshold : Option ℚ
  radius : Option ℚ
  lat : Option ℚ
  lon : Option ℚ
deriving DecidableEq

/-- JS `parseInt` on a value that is already a plain decimal number:
truncation toward zero. -/
def truncRat (q : ℚ) : ℤ :=
  if 0 ≤ q then ⌊q⌋ else ⌈q⌉

/-- `optimizeSearchParams(params)`: trim/lowercase the query, clamp the
threshold to `[0,100]` via `min(100, max(0, parseInt(threshold) || 70))`,
clamp the radius to `[0.1,1000]` via `min(1000, max(0.1, parseFloat(radius) || 10))`,
and delete both coordinates when both are present but either is out of the
valid geographic range.  When either coordinate is absent the coordinate
fields pass through untouched. -/
def optimizeSearchParams (p : OptiParams) : OptiParams :=
  let q' := match p.query with
    | none => none
    | some s => if s = "" then some s else some (s.trim.toLower)
  let t' := match p.threshold with
    | none => none
    | some t =>
      some (min 100 (max 0 (if truncRat t = 0 then (70 : ℚ) else (truncRat t : ℚ))))
  let r' := match p.radius with
    | none => none
    | some r => some (min 1000 (max (1 / 10) (if r = 0 then 10 else r)))
  match p.lat, p.lon with
  | some la, some lo =>
    if la < -90 ∨ 90 < la ∨ lo < -180 ∨ 180 < lo then
      { query := q', threshold := t', radius := r', lat := none, lon := none }
    else
      { query := q', threshold := t', radius := r', lat := some la, lon := some lo }
  | _, _ => { query := q', threshold := t', radius := r', lat := p.lat, lon := p.lon }

example : (paginateResults (List.range 50) 2 20).data.length = 20 := by decide
example : (paginateResults (List.range 50) 2 20).pagination.has_next = true := by decide

/-! ### Geospatial engine -/

/-- `toRadians(degrees) = degrees * (Math.PI / 180)`. -/
noncomputable def toRadians (degrees : ℝ) : ℝ :=
  degrees * (Real.pi / 180)

/-- JS `Math.atan2(y, x)`. -/
noncomputable def atan2 (y x : ℝ) : ℝ :=
  if 0 < x then Real.arctan (y / x)
  else if x < 0 ∧ 0 ≤ y then Real.arctan (y / x) + Real.pi
  else if x < 0 ∧ y < 0 then Real.arctan (y / x) - Real.pi
  else if x = 0 ∧ 0 < y then Real.pi / 2
  else if x = 0 ∧ y < 0 then -(Real.pi / 2)
  else 0

/-- `calculateDistance(lat1, lon1, lat2, lon2)`: Haversine distance with
Earth radius 6371 km.  The source first returns `Infinity` when any argument
is falsy (`!lat1 || !lon1 || !lat2 || !lon2`), i.e. when any coordinate is
`0` (or missing); `none` models that infinite distance. -/
noncomputable def calculateDistance (lat1 lon1 lat2 lon2 : ℝ) : Option ℝ :=
  if lat1 = 0 ∨ lon1 = 0 ∨ lat2 = 0 ∨ lon2 = 0 then none
  else
    let R : ℝ := 6371
    let dLat := toRadians (lat2 - lat1)
    let dLon := toRadians (lon2 - lon1)
    let a := Real.sin (dLat / 2) * Real.sin (dLat / 2) +
      Real.cos (toRadians lat1) * Real.cos (toRadians lat2) *
      (Real.sin (dLon / 2) * Real.sin (dLon / 2))
    let c := 2 * atan2 (Real.sqrt a) (Real.sqrt (1 - a))
    some (R * c)

/-- The bounding box returned by `createBoundingBox`. -/
structure BoundingBox where
  minLat : ℝ
  maxLat : ℝ
  minLon : ℝ
  maxLon : ℝ

/-- `createBoundingBox(centerLat, centerLon, radiusKm)`: approximate degree
offsets using `1/111.32` degrees of latitude per km and
`1/(111.32 * cos(centerLat))` degrees of longitude per km. -/
noncomputable def createBoundingBox (centerLat centerLon radiusKm : ℝ) : BoundingBox :=
  let latDegreePerKm : ℝ := 1 / 111.32
  let lonDegreePerKm : ℝ := 1 / (111.32 * Real.cos (toRadians centerLat))
  let latOffset := radiusKm * latDegreePerKm
  let lonOffset := radiusKm * lonDegreePerKm
  { minLat := centerLat - latOffset,
    maxLat := centerLat + latOffset,
    minLon := centerLon - lonOffset,
    maxLon := centerLon + lonOffset }

/-- Membership in a bounding box (the `BETWEEN ? AND ?` SQL condition built
by `getBoundingBoxSQL` / the `/api/search` handler). -/
def inBoundingBox (b : BoundingBox) (lat lon : ℝ) : Prop :=
  b.minLat ≤ lat ∧ lat ≤ b.maxLat ∧ b.minLon ≤ lon ∧ lon ≤ b.maxLon

/-- A latitude/longitude pair as produced by `parseLocation` /
`extractCoordinates`.  Database values are short decimal literals, hence
rationals. -/
structure Coords where
  lat : ℚ
  lon : ℚ
deriving DecidableEq

/-- Digits of a decimal literal to a natural number. -/
def natOfDigits (ds : List Char) : ℕ :=
  ds.foldl (fun n c => 10 * n + (c.toNat - 48)) 0

/-- JS `parseFloat`, modelled for plain signed decimal literals
(`[+-]?digits[.digits]`, trailing garbage ignored as in JS); `none` models
`NaN` when no numeric prefix exists. -/
def jsParseFloat (s : String) : Option ℚ :=
  let cs := s.trim.data
  let signRest : ℚ × List Char :=
    match cs with
    | '-' :: r => (-1, r)
    | '+' :: r => (1, r)
    | r => (1, r)
  let ip := signRest.2.takeWhile Char.isDigit
  let rest2 := signRest.2.dropWhile Char.isDigit
  let fp :=
    match rest2 with
    | '.' :: r => r.takeWhile Char.isDigit
    | _ => []
  if ip = [] ∧ fp = [] then none
  else some (signRest.1 * ((natOfDigits ip : ℚ) + (natOfDigits fp : ℚ) / (10 ^ fp.length)))

/-- `parseLocation(locationStr)`: split on `,`, parse both parts, validate
the geographic ranges. -/
def parseLocation (s : String) : Option Coords :=
  if s = "" then none
  else
    match s.trim.split (fun c => c = ',') with
    | [p1, p2] =>
      match jsParseFloat p1.trim, jsParseFloat p2.trim with
      | some la, some lo =>
        if la < -90 ∨ 90 < la ∨ lo < -180 ∨ 180 < lo then none
        else some { lat := la, lon := lo }
      | _, _ => none
    | _ => none

/-- A lost/found phone row as consumed by the geospatial pipeline: the four
optional coordinate-string fields probed by `extractCoordinates`, the numeric
`latitude`/`longitude` columns, the creation timestamp (as a number), and the
annotation fields the pipeline attaches (`distance_km`, the `coordinates`
object written by `filterByProximity` — kept in a separate field
`coordsAnn` since it overwrites the string field with an object in JS — and
the `source` tag added at merge time). -/
structure PhoneRecord where
  coordinates : Option String
  location_coordinates : Option String
  lat_lon : Option String
  position : Option String
  latitude : Option ℚ
  longitude : Option ℚ
  created_at : ℚ
  distance_km : Option ℝ
  coordsAnn : Option Coords
  source : Option String

/-- One iteration of the `for (const field of coordinateFields)` loop in
`extractCoordinates`: a falsy (absent or empty) value is skipped, otherwise
`parseLocation` is tried. -/
def tryField (v : Option String) : Option Coords :=
  match v with
  | none => none
  | some s => if s = "" then none else parseLocation s

/-- The coordinate-string probing loop of `extractCoordinates` over
`['coordinates', 'location_coordinates', 'lat_lon', 'position']`. -/
def firstCoordField (r : PhoneRecord) : Option Coords :=
  match tryField r.coordinates with
  | some c => some c
  | none =>
    match tryField r.location_coordinates with
    | some c => some c
    | none =>
      match tryField r.lat_lon with
      | some c => some c
      | none => tryField r.position

/-- `extractCoordinates(record)`: coordinate-string fields first, then the
separate `latitude`/`longitude` columns guarded by
`if (record.latitude && record.longitude)` — a value of exactly `0` is falsy
and the guard fails — followed by the range check. -/
def extractCoordinates (r : PhoneRecord) : Option Coords :=
  match firstCoordField r with
  | some c => some c
  | none =>
    match r.latitude, r.longitude with
    | some la, some lo =>
      if la = 0 ∨ lo = 0 then none
      else if la < -90 ∨ 90 < la ∨ lo < -180 ∨ 180 < lo then none
      else some { lat := la, lon := lo }
    | _, _ => none

/-- JS `Math.round(distance * 100) / 100` (`Math.round(x) = ⌊x + 0.5⌋`). -/
noncomputable def jsRound2 (d : ℝ) : ℝ :=
  (⌊d * 100 + 1 / 2⌋ : ℝ) / 100

/-- `filterByProximity(records, centerLat, centerLon, radiusKm)`: keep the
records whose extracted coordinates are within `radiusKm` of the center
(an infinite distance — `none` — never passes `distance <= radiusKm`),
annotate them with the rounded `distance_km` and the coordinates, and sort
ascending by `distance_km`. -/
noncomputable def filterByProximity (records : List PhoneRecord)
    (centerLat centerLon radiusKm : ℝ) : List PhoneRecord :=
  let results := records.filterMap (fun r =>
    match extractCoordinates r with
    | none => none
    | some c =>
      match calculateDistance centerLat centerLon (c.lat : ℝ) (c.lon : ℝ) with
      | none => none
      | some d =>
        if d ≤ radiusKm then
          some { r with distance_km := some (jsRound2 d), coordsAnn := some c }
        else none)
  results.insertionSort (fun a b => a.distance_km.getD 0 ≤ b.distance_km.getD 0)

/-! ### Search orchestrator (`/api/search`), geospatial configuration -/

/-- The comparator used on the combined result list when geospatial search is
active: ascending by `distance_km` when both records carry the annotation,
otherwise descending by creation time. -/
def combinedLE (a b : PhoneRecord) : Prop :=
  match a.distance_km, b.distance_km with
  | some da, some db => da ≤ db
  | _, _ => b.created_at ≤ a.created_at

noncomputable instance : DecidableRel combinedLE :=
  fun _ _ => Classical.dec _

/-- The merge step of the `/api/search` handler: tag the surviving lost
records with `source: 'lost_phones'` and the surviving found records with
`source: 'found_phones'`, concatenate, and sort with `combinedLE`. -/
noncomputable def combineGeoResults (results foundResults : List PhoneRecord) : List PhoneRecord :=
  let combined :=
    results.map (fun r => { r with source := some "lost_phones" }) ++
    foundResults.map (fun r => { r with source := some "found_phones" })
  combined.insertionSort combinedLE

/-- The post-scan stage of `/api/search` in the geospatial configuration
(coordinates supplied; fuzzy and phonetic post-processing not triggered):
the lost rows go through `filterByProximity`, the found rows do not, and the
two lists are merged.  Embeds lines 754–926 of `server.js` for this
configuration. -/
noncomputable def searchMergeGeo (lostRows foundRows : List PhoneRecord)
    (centerLat centerLon radius : ℝ) : List PhoneRecord :=
  combineGeoResults (filterByProximity lostRows centerLat centerLon radius) foundRows

/-- The HTTP response produced by the `/api/search` handler, restricted to
the fields the error-handling claims are about.  The partial-failure shape
(found scan failed) exposes `lost_phones`/`found_phones`; the success shape
exposes the paginated `data`. -/
structure SearchResponse where
  status : ℕ
  error : Option String
  lost_phones : Option (List PhoneRecord)
  found_phones : Option (List PhoneRecord)
  data : Option (List PhoneRecord)

/-- The two nested `db.all` callbacks of `/api/search` (geospatial
configuration): a lost-scan error is a 500; a found-scan error after a
successful lost scan answers 200 with the processed lost results and an
empty found list; double success merges and paginates. -/
noncomputable def searchScanRespond (lostScan foundScan : Except String (List PhoneRecord))
    (centerLat centerLon radius : ℝ) (page limit : ℕ) : SearchResponse :=
  match lostScan with
  | .error e =>
    { status := 500, error := some e, lost_phones := none, found_phones := none, data := none }
  | .ok rows =>
    let results := filterByProximity rows centerLat centerLon radius
    match foundScan with
    | .error _ =>
      { status := 200, error := none, lost_phones := some results,
        found_phones := some [], data := none }
    | .ok foundRows =>
      let combined := combineGeoResults results foundRows
      { status := 200, error := none, lost_phones := none, found_phones := none,
        data := some (paginateResults combined page limit).data }

/-- A database row as seen by `multiFieldFuzzySearch`: an association list of
string-valued fields (`result[field]`), plus the `_similarity` and
`_matchField` annotations the function attaches. -/
structure SearchRow where
  fields : List (String × String)
  similarityScore : Option ℚ
  matchField : Option String
deriving DecidableEq

/-- The inner loop of `multiFieldFuzzySearch` for one row: fold over the
requested fields, keeping the best `(similarity, field)` pair.  A missing or
empty (falsy) field value is skipped; the accumulator starts at
`(0, null)` and is replaced whenever a strictly greater similarity appears. -/
def bestFieldScore (searchTerm : String) (fields : List String) (r : SearchRow) : ℚ × Option String :=
  fields.foldl (fun acc f =>
    match List.lookup f r.fields with
    | none => acc
    | some v =>
      if v = "" then acc
      else
        let s := calculateSimilarity searchTerm.data v.data
        if acc.1 < s then (s, some f) else acc) (0, none)

/-- `multiFieldFuzzySearch(results, searchTerm, fields, threshold)`: falsy
search term or empty result list is returned unchanged; otherwise each row is
scored by its best field similarity, rows below the threshold are dropped,
surviving rows get `_similarity`/`_matchField` annotations, and the list is
sorted by similarity descending. -/
def multiFieldFuzzySearch (results : List SearchRow) (searchTerm : String)
    (fields : List String) (threshold : ℚ) : List SearchRow :=
  if searchTerm = "" ∨ results = [] then results
  else
    let scored := results.filterMap (fun r =>
      let best := bestFieldScore searchTerm fields r
      if threshold ≤ best.1 then
        some { r with similarityScore := some best.1, matchField := best.2 }
      else none)
    scored.insertionSort
      (fun a b => b.similarityScore.getD 0 ≤ a.similarityScore.getD 0)

lemma bestFieldScore_bounds (searchTerm : String) (fields : List String) (r : SearchRow) :
    0 ≤ (bestFieldScore searchTerm fields r).1 ∧ (bestFieldScore searchTerm fields r).1 ≤ 100 := by
  rw [bestFieldScore]
  have h : ∀ (fs : List String) (acc : ℚ × Option String),
      0 ≤ acc.1 → acc.1 ≤ 100 →
      0 ≤ (fs.foldl (fun acc f =>
        match List.lookup f r.fields with
        | none => acc
        | some v =>
          if v = "" then acc
          else
            let s := calculateSimilarity searchTerm.data v.data
            if acc.1 < s then (s, some f) else acc) acc).1 ∧
      (fs.foldl (fun acc f =>
        match List.lookup f r.fields with
        | none => acc
        | some v =>
          if v = "" then acc
          else
            let s := calculateSimilarity searchTerm.data v.data
            if acc.1 < s then (s, some f) else acc) acc).1 ≤ 100 := by
    intro fs
    induction fs with
    | nil => intro acc h0 h1; exact ⟨h0, h1⟩
    | cons f fs ih =>
      intro acc h0 h1
      simp only [List.foldl_cons]
      rcases hlook : List.lookup f r.fields with _ | v
      · exact ih acc h0 h1
      · by_cases hv : v = ""
        · simp only [hlook, hv, if_pos rfl]
          exact ih acc h0 h1
        · simp only [hlook, if_neg hv]
          by_cases hlt : acc.1 < calculateSimilarity searchTerm.data v.data
          · simp only [if_pos hlt]
            exact ih _ (calculateSimilarity_bounds _ _).1 (calculateSimilarity_bounds _ _).2
          · simp only [if_neg hlt]
            exact ih acc h0 h1
  exact h fields (0, none) (by norm_num) (by norm_num)

/-! ### Claims -/

/-- C2 (code bug in the source): the spec says `similarity("", "") == 100`,
but `calculateSimilarity` returns `0` for two empty strings — the
`!str1 || !str2` guard treats the empty string as missing, making the
`maxLength === 0 → 100` branch of the same function unreachable.  The
either-empty cases return `0` as the claim states.  This theorem evaluates
the code at the failing input. -/
theorem C2_similarity_empty_inputs :
    calculateSimilarity "".data "".data = 0 ∧
    calculateSimilarity "a".data "".data = 0 ∧
    calculateSimilarity "".data "a".data = 0 :=
  ⟨by decide, by decide, by decide⟩

/-- C5 counterexample: for 50 items, page 2 of size 20, the source computes
`has_next = (2 < 3) = true`, so the claimed `has_next == false` is wrong. -/
theorem C5_counterexample :
    ¬ ((paginateResults (List.range 50) 2 20).data.length = 20 ∧
       (paginateResults (List.range 50) 2 20).pagination.current_page = 2 ∧
       (paginateResults (List.range 50) 2 20).pagination.has_previous = true ∧
       (paginateResults (List.range 50) 2 20).pagination.has_next = false) := by
  decide

/-- C5 amended: paginating 50 items with page 2 / size 20 yields 20 items,
`current_page = 2`, `has_previous = true` and `has_next = true` (page 3
exists); page 3 / size 20 yields 10 items and `has_next = false`. -/
theorem C5_pagination_50_items :
    (paginateResults (List.range 50) 2 20).data.length = 20 ∧
    (paginateResults (List.range 50) 2 20).pagination.current_page = 2 ∧
    (paginateResults (List.range 50) 2 20).pagination.has_previous = true ∧
    (paginateResults (List.range 50) 2 20).pagination.has_next = true ∧
    (paginateResults (List.range 50) 3 20).data.length = 10 ∧
    (paginateResults (List.range 50) 3 20).pagination.has_next = false := by
  decide

/-- C3 counterexample: a request that omits `fuzzy` and one that supplies
the server default `fuzzy='true'` are semantically identical (identical
after the handler's destructuring defaults), yet `generateCacheKey` maps
them to different keys, because its `||` fallback for `fuzzy` is `'false'`
while the server default is `'true'`. -/
theorem C3_counterexample :
    applyServerDefaults
        ⟨some "iphone", none, none, none, none, none, none, none, none, none, none, none, none⟩ =
      applyServerDefaults
        ⟨some "iphone", none, none, none, none, some "true", none, none, none, none, none, none, none⟩ ∧
    generateCacheKey
        ⟨some "iphone", none, none, none, none, none, none, none, none, none, none, none, none⟩ ≠
      generateCacheKey
        ⟨some "iphone", none, none, none, none, some "true", none, none, none, none, none, none, none⟩ := by
  constructor
  · decide
  · decide

/-- C3 amended: absent-versus-default invariance of the cache key holds for
the parameters whose `||` fallback agrees with the server default —
`threshold` (70), `radius` (10), `page` (1), `limit` (50) and `phonetic`
('false') — but not for `fuzzy`: an omitted `fuzzy` keys as `'false'`
although the server default is `'true'`. -/
theorem C3_defaulted_params_key_invariance :
    ∀ p : StrParams,
      generateCacheKey { p with threshold := none } =
        generateCacheKey { p with threshold := some "70" } ∧
      generateCacheKey { p with radius := none } =
        generateCacheKey { p with radius := some "10" } ∧
      generateCacheKey { p with page := none } =
        generateCacheKey { p with page := some "1" } ∧
      generateCacheKey { p with limit := none } =
        generateCacheKey { p with limit := some "50" } ∧
      generateCacheKey { p with phonetic := none } =
        generateCacheKey { p with phonetic := some "false" } := by
  intro p
  refine ⟨?_, ?_, ?_, ?_, ?_⟩ <;> simp [generateCacheKey, keyPart]

/-- C6 counterexample: a parameter set with `lat=200` (out of range) and no
`lon` passes through `optimizeSearchParams` untouched — the validation only
runs when both coordinates are present — so the output contains a latitude
but no longitude, contradicting the claimed drop-if-either-missing rule. -/
theorem C6_counterexample :
    ¬ (((optimizeSearchParams ⟨none, none, none, some 200, none⟩).lat.isSome = true) ↔
       ((optimizeSearchParams ⟨none, none, none, some 200, none⟩).lon.isSome = true)) := by
  decide

/-- C6 amended: when both coordinates are present, `optimizeSearchParams`
drops the pair exactly when either coordinate is out of the valid range and
keeps it untouched otherwise; when either coordinate is absent both
coordinate fields pass through unchanged, so a lone (even out-of-range)
coordinate is retained. -/
theorem C6_latlon_validation :
    (∀ (p : OptiParams) (la lo : ℚ), p.lat = some la → p.lon = some lo →
      ((la < -90 ∨ 90 < la ∨ lo < -180 ∨ 180 < lo) →
        (optimizeSearchParams p).lat = none ∧ (optimizeSearchParams p).lon = none) ∧
      ((-90 ≤ la ∧ la ≤ 90 ∧ -180 ≤ lo ∧ lo ≤ 180) →
        (optimizeSearchParams p).lat = some la ∧ (optimizeSearchParams p).lon = some lo)) ∧
    (∀ p : OptiParams, p.lat = none ∨ p.lon = none →
      (optimizeSearchParams p).lat = p.lat ∧ (optimizeSearchParams p).lon = p.lon) := by
  constructor
  · intro p la lo hla hlo
    constructor
    · intro hout
      simp only [optimizeSearchParams, hla, hlo]
      rw [if_pos hout]
      exact ⟨rfl, rfl⟩
    · intro hin
      simp only [optimizeSearchParams, hla, hlo]
      rw [if_neg (by push_neg; exact ⟨hin.1, hin.2.1, hin.2.2.1, hin.2.2.2⟩)]
      exact ⟨rfl, rfl⟩
  · intro p h
    obtain ⟨q, t, r, plat, plon⟩ := p
    cases plat <;> cases plon <;> simp_all [optimizeSearchParams]

/-- C6 witness: an in-range pair is kept verbatim. -/
theorem C6_latlon_validation_witness :
    (optimizeSearchParams ⟨none, none, none, some 10, some 20⟩).lat = some 10 ∧
    (optimizeSearchParams ⟨none, none, none, some 10, some 20⟩).lon = some 20 :=
  (C6_latlon_validation.1 ⟨none, none, none, some 10, some 20⟩ 10 20 rfl rfl).2
    (by norm_num)

/-- C9: whenever one normalized phone number is a suffix of the other and
the shorter one has at least 7 digits, `isPhoneSimilar` returns true for
every threshold (the source's `includes` substring rule subsumes the suffix
rule). -/
theorem C9_phone_suffix_match :
    ∀ (phone1 phone2 : List Char) (threshold : ℚ),
      (normalizePhoneNumber phone2 <:+ normalizePhoneNumber phone1 ∨
       normalizePhoneNumber phone1 <:+ normalizePhoneNumber phone2) →
      7 ≤ min (normalizePhoneNumber phone1).length (normalizePhoneNumber phone2).length →
      isPhoneSimilar phone1 phone2 threshold = true := by
  intro p1 p2 θ hsuf hlen
  have hinf : (normalizePhoneNumber p2 <:+: normalizePhoneNumber p1 ∨
      normalizePhoneNumber p1 <:+: normalizePhoneNumber p2) := by
    rcases hsuf with ⟨t, ht⟩ | ⟨t, ht⟩
    · exact Or.inl ⟨t, [], by simpa using ht⟩
    · exact Or.inr ⟨t, [], by simpa using ht⟩
  by_cases heq : normalizePhoneNumber p1 = normalizePhoneNumber p2
  · simp only [isPhoneSimilar]
    rw [if_pos heq]
  · simp only [isPhoneSimilar]
    rw [if_neg heq, if_pos ⟨hinf, hlen⟩]

/-- C9 witness: `identifiersMatch('phone', "+1 555 123 4567", "5551234567", 85)`. -/
theorem C9_phone_suffix_match_witness :
    isPhoneSimilar "+1 555 123 4567".data "5551234567".data 85 = true :=
  C9_phone_suffix_match "+1 555 123 4567".data "5551234567".data 85
    (Or.inl (by decide)) (by decide)

/-- C7: a found-category scan failure after a successful lost-category scan
yields a 200 response carrying the processed lost results and an empty
found list — the request degrades to partial results instead of failing. -/
theorem C7_found_scan_failure_partial :
    ∀ (rows : List PhoneRecord) (e : String) (cLat cLon radius : ℝ) (page limit : ℕ),
      (searchScanRespond (Except.ok rows) (Except.error e) cLat cLon radius page limit).status
          = 200 ∧
      (searchScanRespond (Except.ok rows) (Except.error e) cLat cLon radius page limit).error
          = none ∧
      (searchScanRespond (Except.ok rows) (Except.error e) cLat cLon radius page limit).lost_phones
          = some (filterByProximity rows cLat cLon radius) ∧
      (searchScanRespond (Except.ok rows) (Except.error e) cLat cLon radius page limit).found_phones
          = some [] := by
  intro rows e cLat cLon radius page limit
  exact ⟨rfl, rfl, rfl, rfl⟩

/-- C8: similarity is always in `[0,100]`, and consequently so is every
`_similarity` score attached by the ranked multi-field fuzzy search. -/
theorem C8_similarity_in_range :
    (∀ s1 s2 : List Char,
      0 ≤ calculateSimilarity s1 s2 ∧ calculateSimilarity s1 s2 ≤ 100) ∧
    (∀ (results : List SearchRow) (searchTerm : String) (fields : List String)
       (threshold : ℚ) (r : SearchRow) (v : ℚ),
      searchTerm ≠ "" →
      r ∈ multiFieldFuzzySearch results searchTerm fields threshold →
      r.similarityScore = some v →
      0 ≤ v ∧ v ≤ 100) := by
  refine ⟨calculateSimilarity_bounds, ?_⟩
  intro results q fields θ r v hq hmem hscore
  rw [multiFieldFuzzySearch] at hmem
  split at hmem
  · rename_i hcond
    rcases hcond with hcond | hcond
    · exact absurd hcond hq
    · subst hcond
      exact absurd hmem (List.not_mem_nil r)
  · rw [List.mem_insertionSort, List.mem_filterMap] at hmem
    obtain ⟨orig, _, hf⟩ := hmem
    dsimp only at hf
    split at hf
    · rename_i hθ
      injection hf with hf
      rw [← hf] at hscore
      simp only [Option.some.injEq] at hscore
      rw [← hscore]
      exact bestFieldScore_bounds q fields orig
    · exact absurd hf (by simp)

/-- C8 witness: a row scored by the fuzzy search carries a score in range. -/
theorem C8_similarity_in_range_witness :
    (⟨[], some 0, none⟩ : SearchRow) ∈
        multiFieldFuzzySearch [⟨[], none, none⟩] "x" [] 0 ∧
    ((0 : ℚ) ≤ 0 ∧ (0 : ℚ) ≤ 100) :=
  ⟨by decide,
   C8_similarity_in_range.2 [⟨[], none, none⟩] "x" [] 0 ⟨[], some 0, none⟩ 0
     (by decide) (by decide) rfl⟩

lemma extractCoordinates_zero (r : PhoneRecord)
    (h1 : r.coordinates = none) (h2 : r.location_coordinates = none)
    (h3 : r.lat_lon = none) (h4 : r.position = none)
    (h5 : r.latitude = some 0 ∨ r.longitude = some 0) :
    extractCoordinates r = none := by
  have hfc : firstCoordField r = none := by
    simp [firstCoordField, tryField, h1, h2, h3, h4]
  rcases h5 with h5 | h5
  · cases hlon : r.longitude with
    | none => simp [extractCoordinates, hfc, h5, hlon]
    | some lo => simp [extractCoordinates, hfc, h5, hlon]
  · cases hlat : r.latitude with
    | none => simp [extractCoordinates, hfc, h5, hlat]
    | some la => simp [extractCoordinates, hfc, h5, hlat]

/-- C10: the geospatial engine treats an exact `0` coordinate as missing —
`calculateDistance` yields the infinite distance (`none`) whenever any of
its four arguments is `0`, `extractCoordinates` yields `null` for a record
whose stored latitude or longitude is `0` (string coordinate fields absent),
and such records are dropped from proximity filtering. -/
theorem C10_zero_coordinate_is_missing :
    (∀ lat1 lon1 lat2 lon2 : ℝ,
      (lat1 = 0 ∨ lon1 = 0 ∨ lat2 = 0 ∨ lon2 = 0) →
      calculateDistance lat1 lon1 lat2 lon2 = none) ∧
    (∀ r : PhoneRecord,
      r.coordinates = none → r.location_coordinates = none →
      r.lat_lon = none → r.position = none →
      (r.latitude = some 0 ∨ r.longitude = some 0) →
      extractCoordinates r = none) ∧
    (∀ (r : PhoneRecord) (centerLat centerLon radius : ℝ),
      r.coordinates = none → r.location_coordinates = none →
      r.lat_lon = none → r.position = none →
      (r.latitude = some 0 ∨ r.longitude = some 0) →
      filterByProximity [r] centerLat centerLon radius = []) := by
  refine ⟨?_, extractCoordinates_zero, ?_⟩
  · intro lat1 lon1 lat2 lon2 h
    simp only [calculateDistance]
    rw [if_pos h]
  · intro r cLat cLon radius h1 h2 h3 h4 h5
    have hex : extractCoordinates r = none := extractCoordinates_zero r h1 h2 h3 h4 h5
    simp [filterByProximity, hex, List.insertionSort]

/-- C10 witness: a record on the equator is silently excluded. -/
theorem C10_zero_coordinate_is_missing_witness :
    calculateDistance 0 1 1 1 = none ∧
    extractCoordinates ⟨none, none, none, none, some 0, some 50, 0, none, none, none⟩ = none ∧
    filterByProximity [⟨none, none, none, none, some 0, some 50, 0, none, none, none⟩] 1 1 10
      = [] :=
  ⟨C10_zero_coordinate_is_missing.1 0 1 1 1 (Or.inl rfl),
   C10_zero_coordinate_is_missing.2.1 _ rfl rfl rfl rfl (Or.inl rfl),
   C10_zero_coordinate_is_missing.2.2 _ 1 1 10 rfl rfl rfl rfl (Or.inl rfl)⟩

lemma toRadians_sub_same (lon : ℝ) : toRadians (lon - lon) = 0 := by
  simp [toRadians]

/-- Evaluation of the Haversine formula for two points on the same meridian:
the distance is exactly `6371` times the central angle `|Δφ|`. -/
lemma calculateDistance_same_lon (lat1 lon lat2 : ℝ)
    (h1 : lat1 ≠ 0) (h2 : lon ≠ 0) (h3 : lat2 ≠ 0)
    (hu : |toRadians (lat2 - lat1) / 2| < Real.pi / 2) :
    calculateDistance lat1 lon lat2 lon =
      some (6371 * (2 * |toRadians (lat2 - lat1) / 2|)) := by
  set u := toRadians (lat2 - lat1) / 2 with hu_def
  have hu1 : -(Real.pi / 2) < u := (abs_lt.mp hu).1
  have hu2 : u < Real.pi / 2 := (abs_lt.mp hu).2
  have hcos : 0 < Real.cos u := Real.cos_pos_of_mem_Ioo ⟨hu1, hu2⟩
  simp only [calculateDistance]
  rw [if_neg (by push_neg; exact ⟨h1, h2, h3, h2⟩)]
  congr 1
  have ha : Real.sin (toRadians (lat2 - lat1) / 2) * Real.sin (toRadians (lat2 - lat1) / 2) +
      Real.cos (toRadians lat1) * Real.cos (toRadians lat2) *
      (Real.sin (toRadians (lon - lon) / 2) * Real.sin (toRadians (lon - lon) / 2)) =
      Real.sin u ^ 2 := by
    rw [toRadians_sub_same]
    norm_num [Real.sin_zero]
    ring
  rw [ha]
  have hs1 : Real.sqrt (Real.sin u ^ 2) = |Real.sin u| := Real.sqrt_sq_eq_abs _
  have hs2 : Real.sqrt (1 - Real.sin u ^ 2) = Real.cos u := by
    rw [← Real.cos_sq' u]
    rw [Real.sqrt_sq_eq_abs]
    exact abs_of_pos hcos
  rw [hs1, hs2]
  have habs_sin : |Real.sin u| = Real.sin |u| := by
    rcases le_or_lt 0 u with h | h
    · rw [abs_of_nonneg h, abs_of_nonneg]
      exact Real.sin_nonneg_of_nonneg_of_le_pi h
        (le_trans hu2.le (by linarith [Real.pi_pos]))
    · rw [abs_of_neg h, Real.sin_neg]
      exact abs_of_neg (Real.sin_neg_of_neg_of_neg_pi_lt h (by linarith [Real.pi_pos]))
  have hcos_abs : Real.cos u = Real.cos |u| := (Real.cos_abs u).symm
  have hat : atan2 |Real.sin u| (Real.cos u) = |u| := by
    rw [atan2, if_pos hcos, habs_sin, hcos_abs, ← Real.tan_eq_sin_div_cos]
    exact Real.arctan_tan
      (lt_of_lt_of_le (neg_lt_zero.mpr (by positivity)) (abs_nonneg u)) hu
  rw [hat]

/-- Distance from a point (with nonzero coordinates) to itself is zero. -/
lemma calculateDistance_self (la lo : ℝ) (h1 : la ≠ 0) (h2 : lo ≠ 0) :
    calculateDistance la lo la lo = some 0 := by
  have h := calculateDistance_same_lon la lo la h1 h2 h1
    (by simp [toRadians]; positivity)
  rw [h]
  norm_num [toRadians]

/-- C4 counterexample: the center `(1,1)` with radius `111.25` km and the
point `(2,1)`.  The point's Haversine distance from the center is
`6371·π/180 ≈ 111.195 < 111.25`, strictly inside the circle, yet its
latitude `2` exceeds `maxLat = 1 + 111.25/111.32 < 2`: the box uses
`111.32` km per degree, which is more than the true `6371·π/180` km per
degree, so the box can exclude interior points. -/
theorem C4_counterexample :
    calculateDistance 1 1 2 1 = some (6371 * (Real.pi / 180)) ∧
    6371 * (Real.pi / 180) < 111.25 ∧
    ¬ inBoundingBox (createBoundingBox 1 1 111.25) 2 1 := by
  refine ⟨?_, ?_, ?_⟩
  · have hu : |toRadians ((2 : ℝ) - 1) / 2| < Real.pi / 2 := by
      have : toRadians ((2 : ℝ) - 1) / 2 = Real.pi / 360 := by
        rw [toRadians]; ring
      rw [this, abs_of_nonneg (by positivity)]
      rw [div_lt_div_iff₀ (by norm_num) (by norm_num)]
      nlinarith [Real.pi_pos]
    rw [calculateDistance_same_lon 1 1 2 (by norm_num) (by norm_num) (by norm_num) hu]
    congr 1
    have : toRadians ((2 : ℝ) - 1) / 2 = Real.pi / 360 := by
      rw [toRadians]; ring
    rw [this, abs_of_nonneg (by positivity)]
    ring
  · nlinarith [Real.pi_lt_d6]
  · intro h
    have h2 := h.2.1
    simp only [createBoundingBox, inBoundingBox] at h2
    norm_num at h2

/-- C4 amended: the round-trip guarantee holds with the radius deflated by
the factor `6371·π/(180·111.32) ≈ 0.9989` (stated for points on the
center's meridian, with valid latitudes and nonzero coordinates): any point
at Haversine distance at most `R` times that factor lies inside
`createBoundingBox(center, R)`.  As coded — with `111.32` km per degree
exceeding the true `6371·π/180` km per degree — the unscaled claim fails,
see the counterexample. -/
theorem C4_bounding_box_contains_scaled :
    ∀ (centerLat lon lat2 R d : ℝ),
      -90 < centerLat → centerLat < 90 →
      -90 ≤ lat2 → lat2 ≤ 90 →
      centerLat ≠ 0 → lon ≠ 0 → lat2 ≠ 0 →
      calculateDistance centerLat lon lat2 lon = some d →
      d ≤ R * ((6371 * Real.pi) / (180 * 111.32)) →
      inBoundingBox (createBoundingBox centerLat lon R) lat2 lon := by
  intro cl lon l2 R d hcl1 hcl2 hl21 hl22 hc hl hl2 hd hle
  have hpi := Real.pi_pos
  have hΔ : |l2 - cl| < 180 := by
    rw [abs_lt]
    constructor <;> linarith
  have hueq : toRadians (l2 - cl) / 2 = (l2 - cl) * (Real.pi / 360) := by
    rw [toRadians]; ring
  have huabs : |toRadians (l2 - cl) / 2| = |l2 - cl| * (Real.pi / 360) := by
    rw [hueq, abs_mul, abs_of_nonneg (by positivity : (0:ℝ) ≤ Real.pi / 360)]
  have hu : |toRadians (l2 - cl) / 2| < Real.pi / 2 := by
    rw [huabs]
    calc |l2 - cl| * (Real.pi / 360) < 180 * (Real.pi / 360) := by
          exact mul_lt_mul_of_pos_right hΔ (by positivity)
      _ = Real.pi / 2 := by ring
  have heval := calculateDistance_same_lon cl lon l2 hc hl hl2 hu
  rw [heval] at hd
  have hdv : 6371 * (2 * |toRadians (l2 - cl) / 2|) = d := Option.some.inj hd
  have hdformula : d = |l2 - cl| * (6371 * Real.pi / 180) := by
    rw [← hdv, huabs]; ring
  have hK : (0 : ℝ) < 6371 * Real.pi / 180 := by positivity
  have habs : |l2 - cl| ≤ R / 111.32 := by
    have h1 : |l2 - cl| * (6371 * Real.pi / 180) ≤
        (R / 111.32) * (6371 * Real.pi / 180) := by
      rw [← hdformula]
      calc d ≤ R * ((6371 * Real.pi) / (180 * 111.32)) := hle
        _ = (R / 111.32) * (6371 * Real.pi / 180) := by ring
    exact (mul_le_mul_right hK).mp h1
  have hR : (0 : ℝ) ≤ R := by
    have hd0 : (0 : ℝ) ≤ d := by
      rw [← hdv]
      positivity
    have hK2 : (0 : ℝ) < 6371 * Real.pi / (180 * 111.32) := by positivity
    nlinarith [hK2]
  have hcos : 0 < Real.cos (toRadians cl) := by
    apply Real.cos_pos_of_mem_Ioo
    constructor
    · rw [toRadians]
      nlinarith
    · rw [toRadians]
      nlinarith
  have hlonOff : (0 : ℝ) ≤ R * (1 / (111.32 * Real.cos (toRadians cl))) := by
    apply mul_nonneg hR
    positivity
  have habs2 := abs_le.mp habs
  have hconv : R * (1 / 111.32) = R / 111.32 := by ring
  simp only [inBoundingBox, createBoundingBox]
  refine ⟨?_, ?_, ?_, ?_⟩
  · rw [hconv]; linarith [habs2.1]
  · rw [hconv]; linarith [habs2.2]
  · linarith
  · linarith

/-- C4 witness: a point at distance 0 from the center of a radius-10 box
lies inside the box. -/
theorem C4_bounding_box_contains_scaled_witness :
    inBoundingBox (createBoundingBox 1 1 10) 1 1 :=
  C4_bounding_box_contains_scaled 1 1 1 10 0
    (by norm_num) (by norm_num) (by norm_num) (by norm_num)
    (by norm_num) (by norm_num) (by norm_num)
    (calculateDistance_self 1 1 (by norm_num) (by norm_num))
    (by positivity)

/-- Any record surviving `filterByProximity` comes from an input record with
extractable coordinates at finite distance at most the radius, and carries
the rounded distance annotation. -/
lemma mem_filterByProximity {r : PhoneRecord} {records : List PhoneRecord}
    {cLat cLon radius : ℝ}
    (h : r ∈ filterByProximity records cLat cLon radius) :
    ∃ (orig : PhoneRecord) (c : Coords) (d : ℝ),
      orig ∈ records ∧ extractCoordinates orig = some c ∧
      calculateDistance cLat cLon (c.lat : ℝ) (c.lon : ℝ) = some d ∧
      d ≤ radius ∧
      r = { orig with distance_km := some (jsRound2 d), coordsAnn := some c } := by
  simp only [filterByProximity] at h
  rw [List.mem_insertionSort, List.mem_filterMap] at h
  obtain ⟨orig, ho, hf⟩ := h
  split at hf
  · exact absurd hf (by simp)
  · rename_i c hex
    split at hf
    · exact absurd hf (by simp)
    · rename_i d hcd
      split at hf
      · rename_i hdle
        exact ⟨orig, c, d, ho, hex, hcd, hdle, (Option.some.inj hf).symm⟩
      · exact absurd hf (by simp)

/-- C1 counterexample: with center `(10,10)` and radius `5`, a found-table
record at `(10.02, 10)` — which satisfies the bounding-box SQL condition —
appears in the merged result set with no `distance_km` annotation, because
the handler applies `filterByProximity` to the lost results only. -/
theorem C1_counterexample :
    inBoundingBox (createBoundingBox 10 10 5) 10.02 10 ∧
    (searchMergeGeo []
        [⟨none, none, none, none, some 10.02, some 10, 0, none, none, none⟩]
        10 10 5).map PhoneRecord.distance_km = [none] := by
  constructor
  · have hpi := Real.pi_pos
    have hcos : 0 < Real.cos (toRadians 10) := by
      apply Real.cos_pos_of_mem_Ioo
      constructor
      · rw [toRadians]; nlinarith
      · rw [toRadians]; nlinarith
    have hoff : (0 : ℝ) ≤ 5 * (1 / (111.32 * Real.cos (toRadians 10))) := by
      apply mul_nonneg (by norm_num)
      positivity
    refine ⟨?_, ?_, ?_, ?_⟩
    · simp only [createBoundingBox]
      norm_num
    · simp only [createBoundingBox]
      norm_num
    · simp only [createBoundingBox]
      linarith
    · simp only [createBoundingBox]
      linarith
  · rfl

/-- C1 amended: in the geospatial configuration, every *lost*-category
record in the merged result set has been proximity-filtered — it stems from
a lost row whose coordinates lie within the radius and it carries the
rounded `distance_km` annotation — whereas every *found*-category record is
merged as scanned (bounding box only), with all its fields, including the
absent `distance_km`, passed through unchanged. -/
theorem C1_geospatial_filter_per_category :
    (∀ (lostRows foundRows : List PhoneRecord) (cLat cLon radius : ℝ) (r : PhoneRecord),
      r ∈ searchMergeGeo lostRows foundRows cLat cLon radius →
      r.source = some "lost_phones" →
      ∃ (orig : PhoneRecord) (c : Coords) (d : ℝ),
        orig ∈ lostRows ∧ extractCoordinates orig = some c ∧
        calculateDistance cLat cLon (c.lat : ℝ) (c.lon : ℝ) = some d ∧
        d ≤ radius ∧ r.distance_km = some (jsRound2 d)) ∧
    (∀ (lostRows foundRows : List PhoneRecord) (cLat cLon radius : ℝ) (r : PhoneRecord),
      r ∈ searchMergeGeo lostRows foundRows cLat cLon radius →
      r.source = some "found_phones" →
      ∃ orig : PhoneRecord,
        orig ∈ foundRows ∧ r = { orig with source := some "found_phones" }) := by
  constructor
  · intro lostRows foundRows cLat cLon radius r hmem hsrc
    simp only [searchMergeGeo, combineGeoResults] at hmem
    rw [List.mem_insertionSort, List.mem_append] at hmem
    rcases hmem with hmem | hmem
    · rw [List.mem_map] at hmem
      obtain ⟨a, ha, rfl⟩ := hmem
      obtain ⟨orig, c, d, ho, hex, hcd, hdle, heq⟩ := mem_filterByProximity ha
      refine ⟨orig, c, d, ho, hex, hcd, hdle, ?_⟩
      rw [heq]
    · rw [List.mem_map] at hmem
      obtain ⟨a, _, rfl⟩ := hmem
      simp at hsrc
  · intro lostRows foundRows cLat cLon radius r hmem hsrc
    simp only [searchMergeGeo, combineGeoResults] at hmem
    rw [List.mem_insertionSort, List.mem_append] at hmem
    rcases hmem with hmem | hmem
    · rw [List.mem_map] at hmem
      obtain ⟨a, _, rfl⟩ := hmem
      simp at hsrc
    · rw [List.mem_map] at hmem
      obtain ⟨a, ha, rfl⟩ := hmem
      exact ⟨a, ha, rfl⟩

/-- C1 witness: a lost record at the center survives the proximity filter
with a distance annotation; a found record is merged verbatim. -/
theorem C1_geospatial_filter_per_category_witness :
    (∃ (orig : PhoneRecord) (c : Coords) (d : ℝ),
      orig ∈ [(⟨none, none, none, none, some 1, some 1, 0, none, none, none⟩ : PhoneRecord)] ∧
      extractCoordinates orig = some c ∧
      calculateDistance 1 1 (c.lat : ℝ) (c.lon : ℝ) = some d ∧
      d ≤ 10 ∧
      (⟨none, none, none, none, some 1, some 1, 0, some (jsRound2 0), some ⟨1, 1⟩,
        some "lost_phones"⟩ : PhoneRecord).distance_km = some (jsRound2 d)) ∧
    (∃ orig : PhoneRecord,
      orig ∈ [(⟨none, none, none, none, some 2, some 3, 0, none, none, none⟩ : PhoneRecord)] ∧
      (⟨none, none, none, none, some 2, some 3, 0, none, none,
        some "found_phones"⟩ : PhoneRecord) =
        { orig with source := some "found_phones" }) := by
  have hcast : (((1 : ℚ) : ℝ)) = (1 : ℝ) := by norm_num
  have hcd : calculateDistance 1 1 (((1 : ℚ) : ℝ)) (((1 : ℚ) : ℝ)) = some 0 := by
    rw [hcast]
    exact calculateDistance_self 1 1 (by norm_num) (by norm_num)
  have hex : extractCoordinates
      ⟨none, none, none, none, some 1, some 1, 0, none, none, none⟩ = some ⟨1, 1⟩ := by
    decide
  have hstep : filterByProximity
      [⟨none, none, none, none, some 1, some 1, 0, none, none, none⟩] 1 1 10 =
      [⟨none, none, none, none, some 1, some 1, 0, some (jsRound2 0), some ⟨1, 1⟩, none⟩] := by
    simp only [filterByProximity, List.filterMap_cons, List.filterMap_nil, hex, hcd]
    rw [if_pos (by norm_num : (0 : ℝ) ≤ 10)]
    rfl
  have hmem1 : (⟨none, none, none, none, some 1, some 1, 0, some (jsRound2 0), some ⟨1, 1⟩,
      some "lost_phones"⟩ : PhoneRecord) ∈ searchMergeGeo
      [⟨none, none, none, none, some 1, some 1, 0, none, none, none⟩] [] 1 1 10 := by
    simp only [searchMergeGeo, combineGeoResults, hstep]
    rw [List.mem_insertionSort]
    simp
  have hmem2 : (⟨none, none, none, none, some 2, some 3, 0, none, none,
      some "found_phones"⟩ : PhoneRecord) ∈ searchMergeGeo []
      [⟨none, none, none, none, some 2, some 3, 0, none, none, none⟩] 1 1 10 := by
    rw [searchMergeGeo, combineGeoResults, List.mem_insertionSort]
    simp [filterByProximity]
  exact ⟨C1_geospatial_filter_per_category.1
      [⟨none, none, none, none, some 1, some 1, 0, none, none, none⟩] [] 1 1 10 _ hmem1 rfl,
    C1_geospatial_filter_per_category.2 []
      [⟨none, none, none, none, some 2, some 3, 0, none, none, none⟩] 1 1 10 _ hmem2 rfl⟩

end PhoneTracker
